import Mathlib

/-!
Verification development for the modernization-toolset CLI
(TypeScript sources under src/: commands, services, utils).

The TypeScript code is shallowly embedded: pure computations become Lean
functions over `Rat`, `String`, `List`, and a `Json` value type; effectful
steps (clock reads, file reads, network calls to the LLM service) become
explicit parameters or `Except`-valued inputs; JavaScript `try`/`catch`
becomes matching on `Except`.
-/

namespace JM

/-! ## JSON values

Values produced by the JavaScript `JSON.parse` builtin.  Numbers are
modelled as rationals. -/

inductive Json where
  | null : Json
  | bool (b : Bool) : Json
  | num (q : Rat) : Json
  | str (s : String) : Json
  | arr (elems : List Json) : Json
  | obj (fields : List (String × Json)) : Json

/-- JavaScript strict equality `j === "s"` of a JSON value with a string
literal, as in the `switch` over severities and the `===` category tests. -/
def Json.strEq (j : Json) (s : String) : Bool :=
  match j with
  | .str t => t == s
  | _ => false

/-- JavaScript `Set.has` comparison (SameValueZero) between a set element
`a` and a probe `b`, for the sets of description strings the code builds:
string elements compare by value; a non-string probe is never equal to a
string element (distinct objects compare by reference). -/
def jsonStrSame (a b : Json) : Bool :=
  match a, b with
  | .str s, .str t => s == t
  | _, _ => false

/-- JavaScript property access `j.k` on a parsed JSON value: the field's
value when `j` is an object with field `k`, otherwise `undefined` (which
behaves like `null` for every use the code makes of it: both are falsy). -/
def Json.get (j : Json) (k : String) : Json :=
  match j with
  | .obj fields =>
    match fields.find? (fun f => f.1 == k) with
    | some f => f.2
    | none => .null
  | _ => .null

/-- JavaScript truthiness of a parsed JSON value: `null`/`undefined`,
`false`, `0` and `""` are falsy, everything else is truthy. -/
def Json.truthy : Json → Bool
  | .null => false
  | .bool b => b
  | .num q => !(q == 0)
  | .str s => !(s == "")
  | .arr _ => true
  | .obj _ => true

/-- JavaScript `a || b` applied to a parsed JSON value `a` with a default
`b`, as in `issue.severity || 'Medium'`. -/
def Json.orElse (a b : Json) : Json := if a.truthy then a else b

/-! ## Severity thresholds (owasp-dependency-check.ts) -/

/-- The severity enumeration `'Critical' | 'High' | 'Medium' | 'Low'` of
`OwaspVulnerability.severity` (src/services/owasp-dependency-check.ts). -/
inductive Severity where
  | Critical | High | Medium | Low
deriving DecidableEq

/-- Rank of a severity; larger rank means more severe.  Used to state
monotonicity of the score-to-severity mapping. -/
def Severity.rank : Severity → Nat
  | .Low => 0
  | .Medium => 1
  | .High => 2
  | .Critical => 3

/-- Severity derived from a numeric CVSS score, from `parseVulnerability`
(src/services/owasp-dependency-check.ts lines 328-332):
`if (cvssScore >= 9.0) severity = 'Critical'; else if (cvssScore >= 7.0)
severity = 'High'; else if (cvssScore >= 4.0) severity = 'Medium';
else severity = 'Low';`. -/
def cvssSeverity (cvssScore : Rat) : Severity :=
  if 9 ≤ cvssScore then .Critical
  else if 7 ≤ cvssScore then .High
  else if 4 ≤ cvssScore then .Medium
  else .Low

/-- `toLowerCase`, modelled characterwise (the code applies it to severity
words and file extensions). -/
def lowerString (s : String) : String := List.asString (s.data.map Char.toLower)

/-- `mapSeverity` (src/services/owasp-dependency-check.ts lines 417-432):
normalizes a raw severity string from the OWASP XML report, defaulting
unknown values to `'Medium'`.  Returns the literal string the code returns. -/
def mapSeverity (rawSeverity : String) : String :=
  let normalizedSeverity := lowerString rawSeverity
  if normalizedSeverity = "critical" then "Critical"
  else if normalizedSeverity = "high" then "High"
  else if normalizedSeverity = "medium" then "Medium"
  else if normalizedSeverity = "low" then "Low"
  else "Medium"

/-- C1: for every numeric CVSS score, the derived severity is Critical when
the score is ≥ 9, High when it is in [7, 9), Medium when it is in [4, 7),
and Low otherwise; consequently the mapping is monotonic in the score: a
higher score never yields a strictly lower severity. -/
theorem cvssSeverity_thresholds_and_monotone :
    (∀ s : Rat,
      (9 ≤ s → cvssSeverity s = .Critical) ∧
      (7 ≤ s → s < 9 → cvssSeverity s = .High) ∧
      (4 ≤ s → s < 7 → cvssSeverity s = .Medium) ∧
      (s < 4 → cvssSeverity s = .Low)) ∧
    (∀ s t : Rat, s ≤ t → (cvssSeverity s).rank ≤ (cvssSeverity t).rank) := by
  constructor
  · intro s
    refine ⟨?_, ?_, ?_, ?_⟩ <;> intros <;> unfold cvssSeverity <;>
      split_ifs <;> first | rfl | linarith
  · intro s t hst
    unfold cvssSeverity
    split_ifs <;> simp_all [Severity.rank] <;> linarith

/-- Witness for C1 at concrete scores. -/
theorem cvssSeverity_thresholds_and_monotone_witness :
    cvssSeverity 9 = .Critical ∧ cvssSeverity (15/2) = .High ∧
    cvssSeverity 5 = .Medium ∧ cvssSeverity 2 = .Low ∧
    (cvssSeverity 3).rank ≤ (cvssSeverity 8).rank :=
  ⟨(cvssSeverity_thresholds_and_monotone.1 9).1 (by norm_num),
   (cvssSeverity_thresholds_and_monotone.1 (15/2)).2.1 (by norm_num) (by norm_num),
   (cvssSeverity_thresholds_and_monotone.1 5).2.2.1 (by norm_num) (by norm_num),
   (cvssSeverity_thresholds_and_monotone.1 2).2.2.2 (by norm_num),
   cvssSeverity_thresholds_and_monotone.2 3 8 (by norm_num)⟩

/-! ## LLM response JSON extraction

The three call sites `parseLlmResponse` (cloud-readiness-analyzer.ts lines
43-51), `analyzeArchitecture` (commands, architect command, lines 639-642)
and `generateLlmMigrationAnalysis` (migration-analyzer.ts lines 203-206)
all run `response.match(/\{[\s\S]*\}/)` and hand `jsonMatch ? jsonMatch[0]
: response` to `JSON.parse`. -/

/-- The opening-brace character. -/
def obrace : Char := '\x7b'

/-- The closing-brace character. -/
def cbrace : Char := '\x7d'

/-- The attempt of the regex at a position holding an opening brace: the
greedy `[\s\S]*` runs to the end of the input and backtracks just far
enough for the final closing-brace atom to match, so the match extends to
the LAST closing brace of the input; the attempt fails when no closing
brace follows the opening one. -/
def braceMatchAt : List Char → Option (List Char)
  | [] => none
  | c :: rest =>
    if (rest.reverse.dropWhile (fun d => d ≠ cbrace)).isEmpty then none
    else some (c :: (rest.reverse.dropWhile (fun d => d ≠ cbrace)).reverse)

/-- The regex match `response.match(/\{[\s\S]*\}/)`: the engine tries each
position in turn; the first position whose character is an opening brace
and which has a closing brace somewhere after it yields the match. -/
def extractBraceMatch : List Char → Option (List Char)
  | [] => none
  | c :: rest =>
    if c = obrace then
      match braceMatchAt (c :: rest) with
      | some matched => some matched
      | none => extractBraceMatch rest
    else extractBraceMatch rest

/-- String-level wrapper for the regex match on an LLM response. -/
def jsonBraceMatch (response : String) : Option String :=
  (extractBraceMatch response.data).map List.asString

/-- The shortest prefix of `cs` that brings an open-brace nesting depth of
`depth` back to zero (opening braces count up, closing braces down), when
one exists.  Auxiliary for the spec-side definition below. -/
def balancedPrefix (depth : Nat) (cs : List Char) : Option (List Char) :=
  match cs with
  | [] => none
  | c :: rest =>
    if c = cbrace then
      if depth = 1 then some [c]
      else (balancedPrefix (depth - 1) rest).map (fun p => c :: p)
    else if c = obrace then (balancedPrefix (depth + 1) rest).map (fun p => c :: p)
    else (balancedPrefix depth rest).map (fun p => c :: p)

/-- The spec reads the extraction as taking "the first balanced JSON object
occurring in the response (the text from the first opening brace to its
matching closing brace)".  This definition follows those spec words — scan
to the first opening brace and return the prefix through the brace that
closes it — for comparison with the code-side `extractBraceMatch`. -/
def specFirstBalancedObject (cs : List Char) : Option (List Char) :=
  match cs with
  | [] => none
  | c :: rest =>
    if c = obrace then (balancedPrefix 1 rest).map (fun p => c :: p)
    else specFirstBalancedObject rest

/-- Counterexample to claim C3: for the response `{"a":1} {"b":2}`, which
contains a JSON object, the substring handed to `JSON.parse` is the whole
`{"a":1} {"b":2}` (first opening brace through LAST closing brace, since
the regex is greedy), not the first balanced JSON object `{"a":1}`. -/
theorem jsonBraceMatch_not_first_balanced_object :
    jsonBraceMatch "\x7b\"a\":1\x7d \x7b\"b\":2\x7d" =
      some "\x7b\"a\":1\x7d \x7b\"b\":2\x7d" ∧
    specFirstBalancedObject ("\x7b\"a\":1\x7d \x7b\"b\":2\x7d".data) =
      some ("\x7b\"a\":1\x7d".data) ∧
    jsonBraceMatch "\x7b\"a\":1\x7d \x7b\"b\":2\x7d" ≠ some "\x7b\"a\":1\x7d" := by
  refine ⟨by decide, by decide, by decide⟩

/-- Lists whose members all satisfy `p` contribute nothing to `dropWhile p`
over an append. -/
theorem dropWhile_append_of_all {α : Type} (p : α → Bool) (l l' : List α)
    (h : ∀ x ∈ l, p x = true) :
    (l ++ l').dropWhile p = l'.dropWhile p := by
  induction l with
  | nil => rfl
  | cons x xs ih =>
    simp only [List.cons_append, List.dropWhile_cons, h x (by simp)]
    exact ih (fun y hy => h y (by simp [hy]))

/-- At an opening brace that is followed (possibly after further text with
no closing brace at the very end) by a final closing brace, the regex
attempt matches through that last closing brace. -/
theorem braceMatchAt_concat (c : Char) (m b : List Char) (hb : cbrace ∉ b) :
    braceMatchAt (c :: ((m ++ [cbrace]) ++ b)) = some (c :: (m ++ [cbrace])) := by
  have hdrop : (((m ++ [cbrace]) ++ b).reverse).dropWhile (fun d => d ≠ cbrace) =
      cbrace :: m.reverse := by
    have hrev : ((m ++ [cbrace]) ++ b).reverse = b.reverse ++ (cbrace :: m.reverse) := by
      simp
    rw [hrev, dropWhile_append_of_all (fun d => d ≠ cbrace) b.reverse _
      (fun x hx => by
        simp only [List.mem_reverse] at hx
        simp only [ne_eq, decide_eq_true_eq]
        exact fun hEq => hb (hEq ▸ hx))]
    rw [List.dropWhile_cons]
    simp
  simp only [braceMatchAt]
  rw [hdrop]
  simp

/-- Claim C3 amended: the substring handed to the JSON parser runs from the
first opening brace of the response through the LAST closing brace (the
pattern is greedy); it coincides with the first balanced JSON object only
when no closing brace occurs after that object.  Decomposed form: when the
response is `a ++ ('{' :: m ++ ['}']) ++ b` with no opening brace in `a`
and no closing brace in `b`, the match is exactly `'{' :: m ++ ['}']`. -/
theorem extractBraceMatch_first_open_to_last_close
    (a m b : List Char) (ha : obrace ∉ a) (hb : cbrace ∉ b) :
    extractBraceMatch (a ++ (obrace :: (m ++ [cbrace])) ++ b) =
      some (obrace :: (m ++ [cbrace])) := by
  induction a with
  | nil =>
    have hstep : extractBraceMatch (obrace :: ((m ++ [cbrace]) ++ b)) =
        match braceMatchAt (obrace :: ((m ++ [cbrace]) ++ b)) with
        | some matched => some matched
        | none => extractBraceMatch ((m ++ [cbrace]) ++ b) := by
      simp [extractBraceMatch]
    simp only [List.nil_append, List.cons_append]
    rw [hstep, braceMatchAt_concat _ _ _ hb]
  | cons c a ih =>
    have hc : c ≠ obrace := fun hEq => ha (hEq ▸ List.mem_cons_self c a)
    have ha' : obrace ∉ a := fun hmem => ha (List.mem_cons_of_mem c hmem)
    simp only [List.cons_append, extractBraceMatch, if_neg hc]
    exact ih ha'

/-- Witness for the amended C3 theorem at a concrete response. -/
theorem extractBraceMatch_first_open_to_last_close_witness :
    extractBraceMatch ("x: ".data ++ (obrace :: ("\"a\":1".data ++ [cbrace])) ++ " rest".data) =
      some (obrace :: ("\"a\":1".data ++ [cbrace])) :=
  extractBraceMatch_first_open_to_last_close "x: ".data "\"a\":1".data " rest".data
    (by decide) (by decide)

/-! ## LLM analysis fallback (architect command) -/

/-- JavaScript `try { body } catch (e) { handler }` where the body either
produces a value or throws. -/
def tryCatch {ε α : Type} (body : Except ε α) (handler : ε → α) : α :=
  match body with
  | .ok a => a
  | .error e => handler e

/-- `createFallbackArchitecturalAnalysis` (src/commands/cve.ts
concatenation, architect command, lines 649-702): the hand-written default
object returned when the LLM round trip or the JSON parse fails. -/
def createFallbackArchitecturalAnalysis
    (sourceFramework targetFramework targetJavaVersion : String) : Json :=
  .obj [
    ("complexityScore", .num 7),
    ("estimatedEffort", .str "3-6 months"),
    ("highLevelSteps", .arr [
      .obj [("title", .str "Assessment and Planning"),
            ("description", .str ("Analyze current " ++ sourceFramework ++
              " application architecture and dependencies")),
            ("effort", .str "2-3 weeks")],
      .obj [("title", .str "Environment Setup"),
            ("description", .str ("Set up " ++ targetFramework ++
              " development environment with Java " ++ targetJavaVersion)),
            ("effort", .str "1 week")],
      .obj [("title", .str "Core Framework Migration"),
            ("description", .str ("Migrate from " ++ sourceFramework ++ " to " ++
              targetFramework ++ " core components")),
            ("effort", .str "4-8 weeks")],
      .obj [("title", .str "Testing and Validation"),
            ("description", .str "Comprehensive testing of migrated application"),
            ("effort", .str "3-4 weeks")]]),
    ("frameworkChanges", .arr [
      .obj [("component", .str "Application Server"),
            ("action", .str "Replace"),
            ("description", .str ("Replace " ++ sourceFramework ++
              " application server with embedded " ++ targetFramework ++ " server")),
            ("before", .str (sourceFramework ++ " EAR/WAR deployment")),
            ("after", .str (targetFramework ++ " executable JAR"))]]),
    ("dependencyChanges", .obj [
      ("remove", .arr [.str (sourceFramework ++ " dependencies")]),
      ("add", .arr [.str (targetFramework ++ " starters")]),
      ("update", .arr [.str ("Java version to " ++ targetJavaVersion)])]),
    ("codeExamples", .arr []),
    ("riskAssessment", .obj [
      ("level", .str "Medium"),
      ("risks", .arr [.str "Framework compatibility issues",
                      .str "Configuration complexity"]),
      ("mitigations", .arr [.str "Incremental migration",
                            .str "Comprehensive testing"])]),
    ("recommendations", .arr [
      .str "Plan migration in phases",
      .str "Set up comprehensive testing",
      .str "Train team on Spring Boot",
      .str "Document migration process"])]

/-- `analyzeArchitecture` (architect command, lines 555-647) with the
effectful steps as explicit inputs: `llmResponse` is the outcome of
`llmService.sendRequest` (the response content, or the thrown error) and
`jsonParse` models the `JSON.parse` builtin, which either returns a parsed
value or throws.  The body is wrapped in `try`/`catch`; any failure makes
the function return the hand-written fallback analysis. -/
def analyzeArchitecture (llmResponse : Except String String)
    (jsonParse : String → Except String Json)
    (sourceFramework targetFramework targetJavaVersion : String) : Json :=
  tryCatch
    (do
      let content ← llmResponse
      let jsonContent := (jsonBraceMatch content).getD content
      jsonParse jsonContent)
    (fun _ =>
      createFallbackArchitecturalAnalysis sourceFramework targetFramework targetJavaVersion)

/-- `parseLlmResponse` (src/services/cloud-readiness-analyzer.ts lines
43-51): extract the brace match (or fall back to the whole response), hand
it to `JSON.parse`, and return `null` (here `none`) when parsing throws. -/
def parseLlmResponse (jsonParse : String → Except String Json)
    (response : String) : Option Json :=
  tryCatch
    (do
      let j ← jsonParse ((jsonBraceMatch response).getD response)
      pure (some j))
    (fun _ => none)

/-- Claim C2: for every LLM response string, including malformed ones, the
JSON-extraction-and-parse step never lets an exception escape to the
caller: whatever the parser does, `analyzeArchitecture` returns the parsed
object on success and exactly the hand-written default object on any
failure (of the request or of the parse), and `parseLlmResponse` likewise
returns `some` parsed value or `none`, so the command always still
produces a result. -/
theorem analyzeArchitecture_never_throws :
    (∀ (req : String) (jsonParse : String → Except String Json) (s t v : String),
      ∀ e, jsonParse ((jsonBraceMatch req).getD req) = .error e →
        analyzeArchitecture (.ok req) jsonParse s t v =
          createFallbackArchitecturalAnalysis s t v) ∧
    (∀ (err : String) (jsonParse : String → Except String Json) (s t v : String),
      analyzeArchitecture (.error err) jsonParse s t v =
        createFallbackArchitecturalAnalysis s t v) ∧
    (∀ (req : String) (jsonParse : String → Except String Json) (s t v : String),
      ∀ j, jsonParse ((jsonBraceMatch req).getD req) = .ok j →
        analyzeArchitecture (.ok req) jsonParse s t v = j) ∧
    (∀ (req : String) (jsonParse : String → Except String Json),
      (∀ e, jsonParse ((jsonBraceMatch req).getD req) = .error e →
        parseLlmResponse jsonParse req = none) ∧
      (∀ j, jsonParse ((jsonBraceMatch req).getD req) = .ok j →
        parseLlmResponse jsonParse req = some j)) := by
  refine ⟨?_, ?_, ?_, ?_⟩
  · intro req jsonParse s t v e he
    simp [analyzeArchitecture, tryCatch, Bind.bind, Except.bind, he]
  · intro err jsonParse s t v
    simp [analyzeArchitecture, tryCatch, Bind.bind, Except.bind]
  · intro req jsonParse s t v j hj
    simp [analyzeArchitecture, tryCatch, Bind.bind, Except.bind, hj]
  · intro req jsonParse
    constructor
    · intro e he
      simp [parseLlmResponse, tryCatch, Bind.bind, Except.bind, he]
    · intro j hj
      simp [parseLlmResponse, tryCatch, Bind.bind, Except.bind, Pure.pure, Except.pure, hj]

/-- Witness for C2: a parser that rejects everything (as `JSON.parse` does
on a malformed response) still yields the fallback object and `none`. -/
theorem analyzeArchitecture_never_throws_witness :
    analyzeArchitecture (.ok "not json at all")
        (fun _ => .error "SyntaxError") "jboss" "springboot3" "21" =
      createFallbackArchitecturalAnalysis "jboss" "springboot3" "21" ∧
    parseLlmResponse (fun _ => .error "SyntaxError") "not json at all" = none :=
  ⟨analyzeArchitecture_never_throws.1 "not json at all" (fun _ => .error "SyntaxError")
      "jboss" "springboot3" "21" "SyntaxError" rfl,
   (analyzeArchitecture_never_throws.2.2.2 "not json at all"
      (fun _ => .error "SyntaxError")).1 "SyntaxError" rfl⟩

/-! ## Cloud readiness analysis (cloud-readiness-analyzer.ts)

The six `check*` helpers test regular expressions against the file content
and push fixed issue/strength records.  The regular-expression engine is a
JavaScript builtin; the outcomes of the individual tests are modelled as a
record of booleans, while the records pushed and the control flow around
the tests are translated from the source. -/

/-- Outcomes of the regex tests of `performStaticAnalysis`'s six checkers
(cloud-readiness-analyzer.ts lines 77-200), one boolean per test, in
source order. -/
structure StaticCheckFlags where
  usesEnvVars : Bool
  hardcodedConfig : Bool
  hardcodedSecrets : Bool
  structuredLogging : Bool
  basicConsoleLogging : Bool
  monitoringMetrics : Bool
  usesHttps : Bool
  httpExternal : Bool
  inputValidation : Bool
  statefulSession : Bool
  caching : Bool
  asyncPatterns : Bool
  healthEndpoints : Bool
  gracefulShutdown : Bool
  fileSystemOps : Bool
  connectionPooling : Bool
  cloudDatabase : Bool
  dbMigrations : Bool

/-- A `CloudReadinessIssue` record at runtime.  The TypeScript interface
declares `severity: 'High' | 'Medium' | 'Low'`, but records merged from
parsed LLM output carry whatever JSON values the LLM supplied, so the
fields are JSON values; the static checks store string literals. -/
structure CloudIssue where
  category : Json
  severity : Json
  description : Json
  recommendation : Json

/-- `checkConfigurationManagement` (lines 77-99): the issues and strengths
this check appends, given the regex outcomes. -/
def checkConfigurationManagement (f : StaticCheckFlags) : List CloudIssue × List String :=
  ((if !f.usesEnvVars && f.hardcodedConfig then
      [{ category := .str "Configuration", severity := .str "Medium",
         description := .str "Hardcoded configuration detected",
         recommendation := .str "Use environment variables or external configuration files" }]
    else []) ++
   (if f.hardcodedSecrets then
      [{ category := .str "Security", severity := .str "High",
         description := .str "Hardcoded secrets detected",
         recommendation := .str "Use environment variables or secret management services" }]
    else []),
   if f.usesEnvVars then ["Uses environment variables for configuration"] else [])

/-- `checkLoggingPatterns` (lines 101-118). -/
def checkLoggingPatterns (f : StaticCheckFlags) : List CloudIssue × List String :=
  ((if !f.structuredLogging && f.basicConsoleLogging then
      [{ category := .str "Observability", severity := .str "Medium",
         description := .str "Basic console logging detected",
         recommendation := .str "Implement structured logging with log levels and JSON format" }]
    else []),
   (if f.structuredLogging then ["Uses structured logging patterns"] else []) ++
   (if f.monitoringMetrics then ["Includes monitoring/metrics integration"] else []))

/-- `checkSecurityPatterns` (lines 120-139). -/
def checkSecurityPatterns (f : StaticCheckFlags) : List CloudIssue × List String :=
  ((if f.httpExternal then
      [{ category := .str "Security", severity := .str "Medium",
         description := .str "HTTP protocol used for external communications",
         recommendation := .str "Use HTTPS for all external API calls" }]
    else []),
   (if f.usesHttps then ["Uses HTTPS for external communications"] else []) ++
   (if f.inputValidation then ["Includes input validation patterns"] else []))

/-- `checkScalabilityPatterns` (lines 141-161). -/
def checkScalabilityPatterns (f : StaticCheckFlags) : List CloudIssue × List String :=
  ((if f.statefulSession then
      [{ category := .str "Scalability", severity := .str "Medium",
         description := .str "Potential stateful session management",
         recommendation := .str "Use stateless authentication (JWT) and external session storage" }]
    else []),
   (if f.caching then ["Includes caching mechanisms"] else []) ++
   (if f.asyncPatterns then ["Uses asynchronous programming patterns"] else []))

/-- `checkContainerReadiness` (lines 163-183). -/
def checkContainerReadiness (f : StaticCheckFlags) : List CloudIssue × List String :=
  ((if f.fileSystemOps then
      [{ category := .str "Container", severity := .str "Low",
         description := .str "File system operations detected",
         recommendation := .str "Use external storage services for persistent data" }]
    else []),
   (if f.healthEndpoints then ["Includes health check endpoints"] else []) ++
   (if f.gracefulShutdown then ["Handles graceful shutdown signals"] else []))

/-- `checkDatabasePatterns` (lines 185-200): strengths only. -/
def checkDatabasePatterns (f : StaticCheckFlags) : List CloudIssue × List String :=
  ([],
   (if f.connectionPooling then ["Uses database connection pooling"] else []) ++
   (if f.cloudDatabase then ["Uses cloud-managed database services"] else []) ++
   (if f.dbMigrations then ["Includes database migration support"] else []))

/-- `calculateStaticScore` (lines 202-224): base score 7, minus 2 per High
issue, 1 per Medium, 0.5 per Low, plus 0.5 per strength capped at 3,
clamped to [0, 10] by `Math.max(0, Math.min(10, score))`. -/
def calculateStaticScore (issues : List CloudIssue) (strengths : List String) : Rat :=
  let base : Rat := 7
  let afterIssues := issues.foldl (fun score issue =>
    if issue.severity.strEq "High" then score - 2
    else if issue.severity.strEq "Medium" then score - 1
    else if issue.severity.strEq "Low" then score - 1/2
    else score) base
  let score := afterIssues + min ((strengths.length : Rat) * (1/2)) 3
  max 0 (min 10 score)

/-- `generateRecommendations` (lines 226-262).  The `Set` is a no-op here:
the four candidate strings are pairwise distinct, so insertion order
concatenation models `Array.from(recommendations)`. -/
def generateRecommendations (issues : List CloudIssue) (cloudProvider : String) : List String :=
  (if issues.any (fun i => i.category.strEq "Configuration") then
    [if cloudProvider = "atlas" then
       "Use MongoDB Atlas App Services for configuration and secrets management"
     else "Use " ++ cloudProvider.toUpper ++
       " configuration services (Parameter Store, Key Vault, etc.)"]
   else []) ++
  (if issues.any (fun i => i.category.strEq "Security") then
    [if cloudProvider = "atlas" then
       "Implement MongoDB Atlas security best practices including Network Access Lists and Database Users"
     else "Implement cloud security best practices and use managed identity services"]
   else []) ++
  (if issues.any (fun i => i.category.strEq "Observability") then
    [if cloudProvider = "atlas" then
       "Integrate with MongoDB Atlas monitoring, alerts, and performance advisor"
     else "Integrate with cloud monitoring and logging services"]
   else []) ++
  (if issues.any (fun i => i.category.strEq "Scalability") then
    [if cloudProvider = "atlas" then
       "Design for MongoDB Atlas auto-scaling and use Atlas Data Lake for analytics"
     else "Design for horizontal scaling and use managed services"]
   else [])

/-- The object returned by `performStaticAnalysis` (lines 69-74). -/
structure StaticAssessment where
  readinessScore : Rat
  issues : List CloudIssue
  strengths : List String
  recommendations : List String

/-- `performStaticAnalysis` (lines 53-75): run the six checks in source
order (each appending to the shared issue and strength arrays), score the
result, and attach recommendations. -/
def performStaticAnalysis (f : StaticCheckFlags) (cloudProvider : String) : StaticAssessment :=
  let c₁ := checkConfigurationManagement f
  let c₂ := checkLoggingPatterns f
  let c₃ := checkSecurityPatterns f
  let c₄ := checkScalabilityPatterns f
  let c₅ := checkContainerReadiness f
  let c₆ := checkDatabasePatterns f
  let issues := c₁.1 ++ c₂.1 ++ c₃.1 ++ c₄.1 ++ c₅.1 ++ c₆.1
  let strengths := c₁.2 ++ c₂.2 ++ c₃.2 ++ c₄.2 ++ c₅.2 ++ c₆.2
  { readinessScore := calculateStaticScore issues strengths
    issues := issues
    strengths := strengths
    recommendations := generateRecommendations issues cloudProvider }

/-- JavaScript `Math.round`: halves round toward positive infinity. -/
def jsRound (x : Rat) : Int := ⌊x + 1/2⌋

/-- `llmAssessment.readinessScore || 5` (line 279): the LLM-reported score
when it is a truthy number, otherwise 5.  A non-numeric truthy score value
would make the JavaScript average NaN; that case is outside the model. -/
def llmScoreOrDefault (llmAssessment : Json) : Rat :=
  match llmAssessment.get "readinessScore" with
  | .num q => if q == 0 then 5 else q
  | _ => 5

/-- Elements of a JSON array field, `[]` when the field is not an array
(the code iterates or spreads such fields only behind truthiness checks;
a truthy non-array field would make the JavaScript iteration throw, which
is outside the model). -/
def Json.arrayItems : Json → List Json
  | .arr xs => xs
  | _ => []

/-- The string value of a JSON value, when it is a string. -/
def Json.asString : Json → Option String
  | .str s => some s
  | _ => none

/-- `[...new Set(xs)]`: deduplicate keeping first occurrences. -/
def dedupFirstAux (seen : List String) : List String → List String
  | [] => []
  | x :: xs =>
    if seen.contains x then dedupFirstAux seen xs
    else x :: dedupFirstAux (x :: seen) xs

/-- Deduplication keeping first occurrences, as `[...new Set(xs)]`. -/
def dedupFirst (xs : List String) : List String := dedupFirstAux [] xs

/-- The record pushed for one LLM-reported issue (lines 286-291):
`category: issue.category || 'General', severity: issue.severity ||
'Medium', description: issue.description, recommendation:
issue.recommendation`.  Note the severity is NOT validated against the
enumeration — a truthy LLM value passes through unchanged. -/
def llmIssueToCloudIssue (issue : Json) : CloudIssue :=
  { category := (issue.get "category").orElse (.str "General")
    severity := (issue.get "severity").orElse (.str "Medium")
    description := issue.get "description"
    recommendation := issue.get "recommendation" }

/-- The `CloudAssessment` record (cloud-readiness-analyzer.ts lines 10-18);
string-valued strength/recommendation lists (non-string LLM entries are
outside the model). -/
structure CloudAssessment where
  filePath : String
  readinessScore : Rat
  issues : List CloudIssue
  strengths : List String
  recommendations : List String
  cloudProvider : String
  assessmentTimestamp : String

/-- `combineAssessments` (lines 264-314).  When the LLM assessment is
truthy, the final score is the average of the static score and
`llmAssessment.readinessScore || 5`; LLM issues whose description does not
already occur among the static issues are appended (the `Set` of existing
descriptions is computed once, before the loop); strengths and
recommendations are merged with `Set` deduplication.  The final score is
rounded to one decimal by `Math.round(finalScore * 10) / 10`, with no
clamping. -/
def combineAssessments (filePath cloudProvider : String) (llmAssessment : Json)
    (staticA : StaticAssessment) (assessmentTimestamp : String) : CloudAssessment :=
  if llmAssessment.truthy then
    let finalScore := (staticA.readinessScore + llmScoreOrDefault llmAssessment) / 2
    let existingIssueTypes := staticA.issues.map (fun i => i.description)
    let mergedIssues := staticA.issues ++
      ((llmAssessment.get "issues").arrayItems.filterMap (fun issue =>
        if existingIssueTypes.any (fun d => jsonStrSame d (issue.get "description")) then none
        else some (llmIssueToCloudIssue issue)))
    let mergedStrengths :=
      if (llmAssessment.get "strengths").truthy then
        dedupFirst (staticA.strengths ++
          ((llmAssessment.get "strengths").arrayItems.filterMap Json.asString))
      else staticA.strengths
    let mergedRecommendations :=
      if (llmAssessment.get "recommendations").truthy then
        dedupFirst (staticA.recommendations ++
          ((llmAssessment.get "recommendations").arrayItems.filterMap Json.asString))
      else staticA.recommendations
    { filePath := filePath
      readinessScore := (jsRound (finalScore * 10) : Rat) / 10
      issues := mergedIssues
      strengths := mergedStrengths
      recommendations := mergedRecommendations
      cloudProvider := cloudProvider
      assessmentTimestamp := assessmentTimestamp }
  else
    { filePath := filePath
      readinessScore := (jsRound (staticA.readinessScore * 10) : Rat) / 10
      issues := staticA.issues
      strengths := staticA.strengths
      recommendations := staticA.recommendations
      cloudProvider := cloudProvider
      assessmentTimestamp := assessmentTimestamp }

/-- `assessFile` (cloud-readiness-analyzer.ts lines 23-41).  `llmOutcome`
models the optional LLM service and its network call: `none` when no
service is configured, `some (.error e)` when `assessCloudReadiness`
throws (the `catch` logs a warning and leaves `llmAssessment` at `null`),
`some (.ok response)` when it returns the response text.  The file content
enters the static analysis only through the regex outcomes `flags`.
`assessFile` itself never throws: it always returns an assessment. -/
def assessFile (llmOutcome : Option (Except String String))
    (jsonParse : String → Except String Json)
    (flags : StaticCheckFlags)
    (filePath cloudProvider assessmentTimestamp : String) : CloudAssessment :=
  let llmAssessment : Json :=
    match llmOutcome with
    | none => .null
    | some (.error _) => .null
    | some (.ok response) => (parseLlmResponse jsonParse response).getD .null
  let staticAssessment := performStaticAnalysis flags cloudProvider
  combineAssessments filePath cloudProvider llmAssessment staticAssessment assessmentTimestamp

/-- `calculateOverallReadiness` (lines 316-321): 0 for an empty list, the
mean readiness score otherwise. -/
def calculateOverallReadiness (assessments : List CloudAssessment) : Rat :=
  if assessments.length = 0 then 0
  else (assessments.foldl (fun sum a => sum + a.readinessScore) 0) / assessments.length

/-- All-false regex outcomes: a file content matching none of the static
patterns. -/
def noFlags : StaticCheckFlags :=
  { usesEnvVars := false, hardcodedConfig := false, hardcodedSecrets := false,
    structuredLogging := false, basicConsoleLogging := false, monitoringMetrics := false,
    usesHttps := false, httpExternal := false, inputValidation := false,
    statefulSession := false, caching := false, asyncPatterns := false,
    healthEndpoints := false, gracefulShutdown := false, fileSystemOps := false,
    connectionPooling := false, cloudDatabase := false, dbMigrations := false }

/-! ## Severity enumeration invariant (C9) and score range (C10) -/

/-- Membership in the cloud-readiness severity enumeration
`'High' | 'Medium' | 'Low'`. -/
def isCloudEnumSeverity (j : Json) : Bool :=
  j.strEq "High" || j.strEq "Medium" || j.strEq "Low"

/-- Membership in the vulnerability severity enumeration
`'Critical' | 'High' | 'Medium' | 'Low'`. -/
def isVulnEnumSeverity (j : Json) : Bool :=
  j.strEq "Critical" || isCloudEnumSeverity j

/-- Counterexample to claim C9: an issue merged in from parsed LLM output
whose severity string is "Banana" is stored unchanged by
`combineAssessments` (the code only defaults a falsy severity to 'Medium',
it never validates), so the resulting record holds a severity outside the
fixed enumeration. -/
theorem combineAssessments_non_enum_severity :
    ((combineAssessments "app.js" "generic"
        (.obj [("readinessScore", .num 8),
               ("issues", .arr [.obj [("description", .str "Uses deprecated API"),
                                      ("severity", .str "Banana"),
                                      ("category", .str "Maintainability")]])])
        (performStaticAnalysis noFlags "generic")
        "2025-06-02T17:37:11.225Z").issues.any
      (fun i => !(isVulnEnumSeverity i.severity))) = true := by
  decide

/-- Claim C9 amended: the OWASP severity mapping always lands in the fixed
enumeration, and every issue produced by the static cloud checks carries a
severity from 'High' | 'Medium' | 'Low'; an issue merged in from parsed
LLM output carries `severity || 'Medium'` unvalidated, so the merged
records all lie in the enumeration exactly when each LLM-supplied severity
(after the 'Medium' defaulting of falsy values) does. -/
theorem severity_enumeration_invariant :
    (∀ raw, mapSeverity raw ∈ (["Critical", "High", "Medium", "Low"] : List String)) ∧
    (∀ (f : StaticCheckFlags) (provider : String),
      ∀ i ∈ (performStaticAnalysis f provider).issues,
        isCloudEnumSeverity i.severity = true) ∧
    (∀ (fp provider : String) (llm : Json) (staticA : StaticAssessment) (ts : String),
      (∀ i ∈ staticA.issues, isCloudEnumSeverity i.severity = true) →
      (∀ issue ∈ (llm.get "issues").arrayItems,
        isCloudEnumSeverity ((issue.get "severity").orElse (.str "Medium")) = true) →
      ∀ i ∈ (combineAssessments fp provider llm staticA ts).issues,
        isCloudEnumSeverity i.severity = true) := by
  refine ⟨?_, ?_, ?_⟩
  · intro raw
    simp only [mapSeverity]
    split_ifs <;> simp
  · intro f provider i hi
    simp only [performStaticAnalysis, checkConfigurationManagement, checkLoggingPatterns,
      checkSecurityPatterns, checkScalabilityPatterns, checkContainerReadiness,
      checkDatabasePatterns, List.mem_append] at hi
    split_ifs at hi <;> simp_all <;> (try casesm* _ ∨ _) <;> subst_vars <;> decide
  · intro fp provider llm staticA ts hstatic hllm i hi
    simp only [combineAssessments] at hi
    rw [apply_ite CloudAssessment.issues] at hi
    by_cases htr : llm.truthy = true
    · rw [if_pos htr] at hi
      simp only [List.mem_append] at hi
      rcases hi with hi | hi
      · exact hstatic i hi
      · obtain ⟨x, hx, hfx⟩ := List.mem_filterMap.mp hi
        by_cases hdup :
            (staticA.issues.map (fun i => i.description)).any
              (fun d => jsonStrSame d (x.get "description")) = true
        · rw [if_pos hdup] at hfx
          exact absurd hfx (by simp)
        · rw [if_neg hdup] at hfx
          have hx' := hllm x hx
          have hix : llmIssueToCloudIssue x = i := Option.some.inj hfx
          subst hix
          simpa [llmIssueToCloudIssue] using hx'
    · rw [if_neg htr] at hi
      exact hstatic i hi

/-- Witness for the amended C9 theorem at concrete inputs. -/
theorem severity_enumeration_invariant_witness :
    mapSeverity "HIGH" ∈ (["Critical", "High", "Medium", "Low"] : List String) ∧
    (∀ i ∈ (performStaticAnalysis noFlags "generic").issues,
      isCloudEnumSeverity i.severity = true) ∧
    (∀ i ∈ (combineAssessments "app.js" "generic"
        (.obj [("issues", .arr [.obj [("description", .str "d"),
                                      ("severity", .str "High")]])])
        (performStaticAnalysis noFlags "generic") "t").issues,
      isCloudEnumSeverity i.severity = true) :=
  ⟨severity_enumeration_invariant.1 "HIGH",
   severity_enumeration_invariant.2.1 noFlags "generic",
   severity_enumeration_invariant.2.2 "app.js" "generic"
     (.obj [("issues", .arr [.obj [("description", .str "d"),
                                   ("severity", .str "High")]])])
     (performStaticAnalysis noFlags "generic") "t"
     (by decide) (by decide)⟩

/-- Counterexample to claim C10: `combineAssessments` does not clamp the
averaged score.  With an all-quiet static analysis (score 7) and an LLM
assessment reporting readinessScore 100, the returned readinessScore is
53.5, outside [0, 10]. -/
theorem staticScore_noFlags :
    (performStaticAnalysis noFlags "generic").readinessScore = 7 := by
  norm_num [performStaticAnalysis, noFlags, checkConfigurationManagement,
    checkLoggingPatterns, checkSecurityPatterns, checkScalabilityPatterns,
    checkContainerReadiness, checkDatabasePatterns, calculateStaticScore]

theorem combineAssessments_score_out_of_range :
    (combineAssessments "app.js" "generic" (.obj [("readinessScore", .num 100)])
        (performStaticAnalysis noFlags "generic") "t").readinessScore = 107 / 2 ∧
    ¬((combineAssessments "app.js" "generic" (.obj [("readinessScore", .num 100)])
        (performStaticAnalysis noFlags "generic") "t").readinessScore ≤ 10) := by
  have hllm : llmScoreOrDefault (.obj [("readinessScore", .num 100)]) = 100 := by
    norm_num [llmScoreOrDefault, Json.get, List.find?]
  have htr : (Json.obj [("readinessScore", Json.num 100)]).truthy = true := rfl
  have hscore : (combineAssessments "app.js" "generic"
      (.obj [("readinessScore", .num 100)])
      (performStaticAnalysis noFlags "generic") "t").readinessScore = 107 / 2 := by
    simp only [combineAssessments]
    rw [apply_ite CloudAssessment.readinessScore, if_pos htr]
    simp only [staticScore_noFlags, hllm, jsRound]
    have hfloor : (⌊((7 : Rat) + 100) / 2 * 10 + 1 / 2⌋ : ℤ) = 535 := by
      apply Int.floor_eq_iff.mpr
      constructor <;> norm_num
    rw [hfloor]
    norm_num
  exact ⟨hscore, by rw [hscore]; norm_num⟩

/-- Rounding to one decimal by `Math.round(x * 10) / 10` stays in [0, 10]
when `x` does. -/
theorem round10_mem (x : Rat) (h0 : 0 ≤ x) (h10 : x ≤ 10) :
    0 ≤ ((jsRound (x * 10) : Rat) / 10) ∧ ((jsRound (x * 10) : Rat) / 10) ≤ 10 := by
  unfold jsRound
  have hlow : (0 : ℤ) ≤ ⌊x * 10 + 1 / 2⌋ := by
    rw [Int.le_floor]
    push_cast
    linarith
  have hhigh : ⌊x * 10 + 1 / 2⌋ ≤ (100 : ℤ) := by
    rw [Int.floor_le_iff]
    push_cast
    linarith
  constructor
  · apply div_nonneg _ (by norm_num : (0:Rat) ≤ 10)
    exact_mod_cast hlow
  · rw [div_le_iff₀ (by norm_num : (0:Rat) < 10)]
    have : ((⌊x * 10 + 1 / 2⌋ : ℤ) : Rat) ≤ 100 := by exact_mod_cast hhigh
    linarith

/-- Claim C10 amended: the static readiness score is clamped to [0, 10] for
every combination of issues and strengths, and the assessment returned by
`combineAssessments` has its readinessScore in [0, 10] whenever the static
score is in range and the (defaulted) LLM-reported score is also in range
— the code does not validate the LLM score, so an out-of-range LLM score
propagates to the result. -/
theorem readiness_score_range :
    (∀ (issues : List CloudIssue) (strengths : List String),
      0 ≤ calculateStaticScore issues strengths ∧
        calculateStaticScore issues strengths ≤ 10) ∧
    (∀ (fp provider : String) (llm : Json) (staticA : StaticAssessment) (ts : String),
      0 ≤ staticA.readinessScore → staticA.readinessScore ≤ 10 →
      0 ≤ llmScoreOrDefault llm → llmScoreOrDefault llm ≤ 10 →
      0 ≤ (combineAssessments fp provider llm staticA ts).readinessScore ∧
        (combineAssessments fp provider llm staticA ts).readinessScore ≤ 10) := by
  constructor
  · intro issues strengths
    unfold calculateStaticScore
    constructor
    · exact le_max_left 0 _
    · exact max_le (by norm_num) (min_le_left 10 _)
  · intro fp provider llm staticA ts hs0 hs10 hl0 hl10
    simp only [combineAssessments]
    rw [apply_ite CloudAssessment.readinessScore]
    by_cases htr : llm.truthy = true
    · rw [if_pos htr]
      simp only
      exact round10_mem _ (by linarith) (by linarith)
    · rw [if_neg htr]
      simp only
      exact round10_mem _ hs0 hs10

/-- Witness for the amended C10 theorem at concrete inputs. -/
theorem readiness_score_range_witness :
    (0 ≤ calculateStaticScore [] ["Uses HTTPS for external communications"] ∧
      calculateStaticScore [] ["Uses HTTPS for external communications"] ≤ 10) ∧
    (0 ≤ (combineAssessments "app.js" "generic" (.obj [("readinessScore", .num 9)])
        (performStaticAnalysis noFlags "generic") "t").readinessScore ∧
      (combineAssessments "app.js" "generic" (.obj [("readinessScore", .num 9)])
        (performStaticAnalysis noFlags "generic") "t").readinessScore ≤ 10) :=
  ⟨readiness_score_range.1 [] ["Uses HTTPS for external communications"],
   readiness_score_range.2 "app.js" "generic" (.obj [("readinessScore", .num 9)])
     (performStaticAnalysis noFlags "generic") "t"
     (by rw [staticScore_noFlags]; norm_num) (by rw [staticScore_noFlags]; norm_num)
     (by norm_num [llmScoreOrDefault, Json.get, List.find?])
     (by norm_num [llmScoreOrDefault, Json.get, List.find?])⟩

/-! ## Output utilities (src/utils/output-utils.ts)

`saveAnalysisResults` derives one timestamped base name and writes a JSON
file and a Markdown file; `generateMarkdownReport` renders the report and
embeds its own `new Date().toISOString()` observation.  Clock readings are
explicit parameters of the embedding. -/

/-- Decimal rendering of a JSON number in templates and JSON output.
Integral values render as JavaScript renders them; non-integral rationals
are rendered as `num/den`, which only approximates JavaScript float
formatting (no theorem depends on this rendering). -/
def numToString (q : Rat) : String :=
  if q.den = 1 then toString q.num else toString q.num ++ "/" ++ toString q.den

/-- Escaping of a string for a JSON string literal, modelling the common
cases of `JSON.stringify` quoting (quote, backslash, newline, carriage
return, tab; other control characters are not modelled). -/
def jsonEscape (s : String) : String :=
  s.data.foldl (fun acc c =>
    if c = '"' then acc ++ "\\\""
    else if c = '\\' then acc ++ "\\\\"
    else if c = '\n' then acc ++ "\\n"
    else if c = '\r' then acc ++ "\\r"
    else if c = '\t' then acc ++ "\\t"
    else acc.push c) ""

/-- A run of `n` spaces, for the 2-space indentation of
`JSON.stringify(data, null, 2)`. -/
def spaces (n : Nat) : String := List.asString (List.replicate n ' ')

mutual

/-- `JSON.stringify(value, null, 2)` at indentation depth `indent`. -/
def Json.stringify2 (indent : Nat) : Json → String
  | .null => "null"
  | .bool b => if b then "true" else "false"
  | .num q => numToString q
  | .str s => "\"" ++ jsonEscape s ++ "\""
  | .arr [] => "[]"
  | .arr (x :: xs) =>
      "[\n" ++ stringifyItems (indent + 2) (x :: xs) ++ "\n" ++ spaces indent ++ "]"
  | .obj [] => "\x7b\x7d"
  | .obj (f :: fs) =>
      "\x7b\n" ++ stringifyFields (indent + 2) (f :: fs) ++ "\n" ++ spaces indent ++ "\x7d"

/-- Comma-and-newline separated array items, each indented. -/
def stringifyItems (indent : Nat) : List Json → String
  | [] => ""
  | [x] => spaces indent ++ Json.stringify2 indent x
  | x :: y :: xs =>
      spaces indent ++ Json.stringify2 indent x ++ ",\n" ++ stringifyItems indent (y :: xs)

/-- Comma-and-newline separated object fields, each indented. -/
def stringifyFields (indent : Nat) : List (String × Json) → String
  | [] => ""
  | [(k, v)] => spaces indent ++ "\"" ++ jsonEscape k ++ "\": " ++ Json.stringify2 indent v
  | (k, v) :: f :: fs =>
      spaces indent ++ "\"" ++ jsonEscape k ++ "\": " ++ Json.stringify2 indent v ++ ",\n" ++
        stringifyFields indent (f :: fs)

end

/-- Top-level `JSON.stringify(data, null, 2)`. -/
def jsonStringify (data : Json) : String := Json.stringify2 0 data

mutual

/-- JavaScript template-literal coercion of a value to a string: strings
embed as themselves, numbers and booleans and null via their JS
renderings, arrays as comma-joined elements, objects as
"[object Object]".  (Array elements that are null render as "null" here
rather than the empty string JavaScript would use; no theorem depends on
this rendering.) -/
def Json.display : Json → String
  | .null => "null"
  | .bool b => if b then "true" else "false"
  | .num q => numToString q
  | .str s => s
  | .arr xs => Json.displayList xs
  | .obj _ => "[object Object]"

/-- Comma-joined rendering of array elements. -/
def Json.displayList : List Json → String
  | [] => ""
  | [x] => Json.display x
  | x :: y :: xs => Json.display x ++ "," ++ Json.displayList (y :: xs)

end

/-- `s || fallback` on a string value: the fallback when `s` is empty. -/
def strOr (s fallback : String) : String := if s = "" then fallback else s

/-- `${j || fallback}`: display the value when truthy, else the fallback. -/
def jsDisplayOr (j : Json) (fallback : String) : String :=
  if j.truthy then j.display else fallback

/-- `${j?.toUpperCase() || fallback}` for a string-or-absent field (calling
`toUpperCase` on a non-string value would throw; outside the model). -/
def jsUpperOr (j : Json) (fallback : String) : String :=
  match j with
  | .str s => strOr s.toUpper fallback
  | _ => fallback

/-- `Number.prototype.toFixed(1)`, modelled as rounding half away from zero
to one decimal and rendering with exactly one fractional digit (binary
floating-point corner cases are not modelled; no theorem depends on it). -/
def toFixed1 (q : Rat) : String :=
  let scaled : Int := if 0 ≤ q then ⌊q * 10 + 1 / 2⌋ else -⌊(-q) * 10 + 1 / 2⌋
  let sign := if scaled < 0 then "-" else ""
  let n := scaled.natAbs
  sign ++ toString (n / 10) ++ "." ++ toString (n % 10)

/-- `${j?.toFixed(1) || fallback}` for a number-or-absent field. -/
def jsToFixed1Or (j : Json) (fallback : String) : String :=
  match j with
  | .num q => strOr (toFixed1 q) fallback
  | _ => fallback

/-- `${j?.toFixed(1)}` with no `||` default: a nullish chain interpolates
as "undefined". -/
def jsToFixed1U (j : Json) : String :=
  match j with
  | .num q => toFixed1 q
  | _ => "undefined"

/-- `xs?.map(f).join(sep) || fallbackText` over a JSON array field with the
item index available: the fallback applies when the field is nullish (the
optional chain short-circuits) or when the join is the empty string. -/
def jsArrayMapJoin (j : Json) (sep : String) (fallbackText : String)
    (f : Nat → Json → String) : String :=
  match j with
  | .arr xs => strOr (String.intercalate sep ((xs.enum).map (fun p => f p.1 p.2))) fallbackText
  | _ => fallbackText

/-- `xs?.map(f).join(sep)` with no `||` default: a nullish field makes the
whole chain `undefined`, which interpolates as "undefined". -/
def jsArrayMapJoinU (j : Json) (sep : String) (f : Nat → Json → String) : String :=
  match j with
  | .arr xs => String.intercalate sep ((xs.enum).map (fun p => f p.1 p.2))
  | _ => "undefined"

/-- `analysisType.charAt(0).toUpperCase() + analysisType.slice(1)`
(output-utils.ts line 40). -/
def capitalizeFirst (s : String) : String :=
  match s.data with
  | [] => ""
  | c :: rest => List.asString (c.toUpper :: rest)

/-- One step worth of `stripAnsiColors` with explicit fuel: removes every
ANSI sequence `ESC '[' [0-9;]* 'm'` (the regex `\x1b\[[0-9;]*m`, global).
The fuel is the input length, which every step strictly consumes, so it
never runs out. -/
def stripAnsiFuel : Nat → List Char → List Char
  | 0, cs => cs
  | _ + 1, [] => []
  | fuel + 1, c :: rest =>
    if c = '\x1b' then
      match rest with
      | '[' :: rest2 =>
        match rest2.dropWhile (fun d => d.isDigit || d == ';') with
        | 'm' :: rest3 => stripAnsiFuel fuel rest3
        | _ => c :: stripAnsiFuel fuel rest
      | _ => c :: stripAnsiFuel fuel rest
    else c :: stripAnsiFuel fuel rest

/-- `stripAnsiColors` / the inline ANSI strip of the raw-output section
(output-utils.ts lines 70 and 257-259). -/
def stripAnsi (s : String) : String := List.asString (stripAnsiFuel s.data.length s.data)

/-- `generateTimestamp` (output-utils.ts lines 5-8) applied to a clock
reading `iso` (the value of `new Date().toISOString()`):
`iso.replace(/[:.]/g, '-')` maps every ':' and '.' to '-';
`.replace('T', '_')` with a string argument replaces only the first 'T';
`.split('.')[0]` takes the prefix before the first '.', the whole string
here since no '.' survives the first replace. -/
def replaceFirstT : List Char → List Char
  | [] => []
  | c :: rest => if c = 'T' then '_' :: rest else c :: replaceFirstT rest

/-- `generateTimestamp` on an explicit ISO clock reading. -/
def generateTimestamp (iso : String) : String :=
  let dashed := iso.data.map (fun c => if c = ':' ∨ c = '.' then '-' else c)
  let underscored := replaceFirstT dashed
  List.asString (underscored.takeWhile (fun c => c ≠ '.'))

/-- Node `path.basename` for POSIX paths: trailing slashes are dropped and
the component after the last remaining '/' is returned ("/" for the root
path, "" for the empty path). -/
def pathBasename (p : String) : String :=
  let cs := p.data
  let trimmed := (cs.reverse.dropWhile (fun c => c = '/')).reverse
  if trimmed.isEmpty then (if cs.isEmpty then "" else "/")
  else List.asString ((trimmed.reverse.takeWhile (fun c => c ≠ '/')).reverse)

/-- The character class `[a-zA-Z0-9]`. -/
def isAsciiAlphaNum (c : Char) : Bool :=
  ('a' ≤ c && c ≤ 'z') || ('A' ≤ c && c ≤ 'Z') || ('0' ≤ c && c ≤ '9')

/-- `path.basename(projectPath).replace(/[^a-zA-Z0-9]/g, '_')`
(output-utils.ts line 17). -/
def sanitizedPathName (projectPath : String) : String :=
  List.asString ((pathBasename projectPath).data.map
    (fun c => if isAsciiAlphaNum c then c else '_'))

/-- `generateArchitectMarkdown` (output-utils.ts lines 85-144). -/
def generateArchitectMarkdown (data : Json) (_terminalOutput : String) : String :=
  let analysis := (data.get "migrationAnalysis").orElse data
  "## Executive Summary\n\n- **Source Framework:** " ++
    jsUpperOr ((data.get "metadata").get "sourceFramework") "Unknown" ++
    "\n- **Target Framework:** " ++
    jsUpperOr ((data.get "metadata").get "targetFramework") "Unknown" ++
    "\n- **Target Java Version:** " ++
    jsDisplayOr ((data.get "metadata").get "targetJavaVersion") "Unknown" ++
    "\n- **Complexity Score:** " ++ jsDisplayOr (analysis.get "complexityScore") "N/A" ++
    "/10\n- **Estimated Effort:** " ++ jsDisplayOr (analysis.get "estimatedEffort") "N/A" ++
    "\n\n## High-Level Migration Steps\n\n" ++
    jsArrayMapJoin (analysis.get "highLevelSteps") "\n" "No migration steps available."
      (fun index step =>
        "### " ++ toString (index + 1) ++ ". " ++ (step.get "title").display ++ "\n\n" ++
        (step.get "description").display ++ "\n\n**Effort:** " ++
        jsDisplayOr (step.get "effort") "Not specified" ++ "\n") ++
    "\n\n## Framework-Specific Changes\n\n" ++
    jsArrayMapJoin (analysis.get "frameworkChanges") "\n" "No framework changes available."
      (fun index change =>
        "### " ++ toString (index + 1) ++ ". " ++ (change.get "component").display ++ ": " ++
        (change.get "action").display ++ "\n\n" ++ (change.get "description").display ++
        "\n\n- **Before:** `" ++ jsDisplayOr (change.get "before") "N/A" ++
        "`\n- **After:** `" ++ jsDisplayOr (change.get "after") "N/A" ++ "`\n") ++
    "\n\n## Dependency Changes\n\n### Dependencies to Remove\n" ++
    jsArrayMapJoin ((analysis.get "dependencyChanges").get "remove") "\n" "None"
      (fun _ dep => "- " ++ dep.display) ++
    "\n\n### Dependencies to Add\n" ++
    jsArrayMapJoin ((analysis.get "dependencyChanges").get "add") "\n" "None"
      (fun _ dep => "- " ++ dep.display) ++
    "\n\n### Dependencies to Update\n" ++
    jsArrayMapJoin ((analysis.get "dependencyChanges").get "update") "\n" "None"
      (fun _ dep => "- " ++ dep.display) ++
    "\n\n## Code Transformation Examples\n\n" ++
    jsArrayMapJoin (analysis.get "codeExamples") "\n" "No code examples available."
      (fun index codeExample =>
        "### " ++ toString (index + 1) ++ ". " ++ (codeExample.get "description").display ++
        "\n\n**Before:**\n```java\n" ++ (codeExample.get "before").display ++
        "\n```\n\n**After:**\n```java\n" ++ (codeExample.get "after").display ++ "\n```\n") ++
    "\n"

/-- `generateCVEMarkdown` (output-utils.ts lines 146-181). -/
def generateCVEMarkdown (data : Json) (_terminalOutput : String) : String :=
  "## Summary\n\n- **Total Files Analyzed:** " ++ jsDisplayOr (data.get "totalFiles") "0" ++
    "\n- **Files with Vulnerabilities:** " ++ jsDisplayOr (data.get "vulnerableFiles") "0" ++
    "\n- **Analysis Date:** " ++ (data.get "timestamp").display ++
    "\n\n## Vulnerability Details\n\n" ++
    jsArrayMapJoin (data.get "results") "\n" "No vulnerabilities detected."
      (fun index result =>
        "### " ++ toString (index + 1) ++ ". " ++ (result.get "filePath").display ++ "\n\n" ++
        jsArrayMapJoinU (result.get "vulnerabilities") "\n"
          (fun vulnIndex vuln =>
            "#### " ++ toString (vulnIndex + 1) ++ ". " ++ (vuln.get "type").display ++
            " (" ++ (vuln.get "severity").display ++ " Severity)\n\n**Line:** " ++
            (vuln.get "lineNumber").display ++ "  \n**Description:** " ++
            (vuln.get "description").display ++ "\n\n" ++
            (if (vuln.get "recommendation").truthy then
              "**Recommendation:** " ++ (vuln.get "recommendation").display
             else "") ++ "\n") ++
        "\n") ++
    "\n\n## Recommendations\n\n1. **High Severity Issues:** Address immediately before deployment\n2. **Medium Severity Issues:** Plan fixes in next development cycle  \n3. **Low Severity Issues:** Consider addressing during regular maintenance\n\n## Security Best Practices\n\n- Implement input validation for all user inputs\n- Use parameterized queries to prevent SQL injection\n- Avoid logging sensitive information\n- Use HTTPS for all external communications\n- Implement proper error handling without exposing sensitive details\n"

/-- `generateCloudReadinessMarkdown` (output-utils.ts lines 184-254). -/
def generateCloudReadinessMarkdown (data : Json) (_terminalOutput : String) : String :=
  "## Summary\n\n- **Overall Readiness Score:** " ++
    jsToFixed1Or (data.get "overallScore") "N/A" ++
    "/10\n- **Target Cloud Provider:** " ++ jsUpperOr (data.get "cloudProvider") "Generic" ++
    "\n- **Total Files Analyzed:** " ++ jsDisplayOr (data.get "totalFiles") "0" ++
    "\n\n### Readiness Distribution\n- **High Readiness (8-10):** " ++
    jsDisplayOr ((data.get "summary").get "highReadiness") "0" ++
    " files\n- **Medium Readiness (5-7):** " ++
    jsDisplayOr ((data.get "summary").get "mediumReadiness") "0" ++
    " files  \n- **Low Readiness (0-4):** " ++
    jsDisplayOr ((data.get "summary").get "lowReadiness") "0" ++
    " files\n\n## Detailed Assessment\n\n" ++
    jsArrayMapJoin (data.get "assessments") "\n" "No assessments available."
      (fun index assessment =>
        "### " ++ toString (index + 1) ++ ". " ++ (assessment.get "filePath").display ++
        "\n\n**Readiness Score:** " ++ jsToFixed1U (assessment.get "readinessScore") ++
        "/10\n\n#### Issues Identified:\n" ++
        jsArrayMapJoinU (assessment.get "issues") "\n"
          (fun _ issue =>
            "- **" ++ (issue.get "category").display ++ "** (" ++
            (issue.get "severity").display ++ "): " ++ (issue.get "description").display ++
            "\n  " ++
            (if (issue.get "recommendation").truthy then
              "  - *Recommendation:* " ++ (issue.get "recommendation").display
             else "")) ++
        "\n") ++
    "\n\n## Cloud Migration Recommendations\n\n### Immediate Actions (High Priority)\n- Address low readiness files with critical cloud compatibility issues\n- Implement stateless design patterns\n- Externalize configuration management\n\n### Short-term Improvements (Medium Priority)  \n- Implement health checks and monitoring\n- Add distributed tracing capabilities\n- Optimize for horizontal scaling\n\n### Long-term Enhancements (Low Priority)\n- Adopt cloud-native patterns (circuit breakers, service mesh)\n- Implement advanced observability\n- Consider serverless opportunities\n\n## Cloud Provider Specific Guidance\n\n" ++
    (if (data.get "cloudProvider").strEq "aws" then
      "\n### AWS Recommendations\n- Use AWS Application Load Balancer for traffic distribution\n- Implement AWS CloudWatch for monitoring\n- Consider AWS Lambda for serverless functions\n- Use AWS RDS for managed databases\n"
     else if (data.get "cloudProvider").strEq "azure" then
      "\n### Azure Recommendations  \n- Use Azure Application Gateway for load balancing\n- Implement Azure Monitor for observability\n- Consider Azure Functions for serverless computing\n- Use Azure SQL Database for managed data services\n"
     else if (data.get "cloudProvider").strEq "gcp" then
      "\n### Google Cloud Recommendations\n- Use Google Cloud Load Balancing\n- Implement Cloud Monitoring and Logging\n- Consider Cloud Functions for event-driven architecture\n- Use Cloud SQL for managed databases\n"
     else
      "\n### Generic Cloud Recommendations\n- Implement container orchestration (Kubernetes)\n- Use managed database services\n- Implement proper monitoring and logging\n- Design for auto-scaling capabilities\n") ++
    "\n"

/-- The `switch (analysisType)` of `generateMarkdownReport` (lines 51-61):
unknown types contribute nothing. -/
def typeSpecificMarkdown (analysisType : String) (data : Json)
    (terminalOutput : String) : String :=
  if analysisType = "architect" then generateArchitectMarkdown data terminalOutput
  else if analysisType = "cve" then generateCVEMarkdown data terminalOutput
  else if analysisType = "cloud-readiness" then generateCloudReadinessMarkdown data terminalOutput
  else ""

/-- The fixed report-header text before the embedded clock reading
(output-utils.ts lines 40-43). -/
def reportHeaderPre (analysisType projectPath : String) : String :=
  "# " ++ capitalizeFirst analysisType ++ " Analysis Report\n\n**Project:** " ++
    projectPath ++ "  \n**Analysis Date:** "

/-- The fixed report-header text after the embedded clock reading
(lines 43-48). -/
def reportHeaderPost : String := "  \n**Tool:** Modernization Toolset\n\n---\n\n"

/-- The raw-output trailer of the report (lines 64-80); note that the text
` // Remove ANSI color codes` sits inside the template literal and is
emitted into the report. -/
def reportRawSection (data : Json) (terminalOutput : String) : String :=
  "\n---\n\n## Raw Terminal Output\n\n```\n" ++ stripAnsi terminalOutput ++
    " // Remove ANSI color codes\n```\n\n---\n\n## Analysis Data (JSON)\n\n```json\n" ++
    jsonStringify data ++ "\n```\n"

/-- `generateMarkdownReport` (output-utils.ts lines 32-83) with the clock
reading `nowReport` (the `new Date().toISOString()` of line 38) explicit.
The output is the header up to the Analysis Date, the clock reading, and
the remainder, which does not depend on the clock. -/
def generateMarkdownReport (analysisType : String) (data : Json)
    (terminalOutput : String) (projectPath : String) (nowReport : String) : String :=
  reportHeaderPre analysisType projectPath ++
    (nowReport ++
      (reportHeaderPost ++
        (typeSpecificMarkdown analysisType data terminalOutput ++
          reportRawSection data terminalOutput)))

/-- The observable outcome of `saveAnalysisResults`: the two returned names
and the `fs.writeFileSync` calls in order. -/
structure SavedResults where
  jsonFile : String
  markdownFile : String
  writes : List (String × String)

/-- `saveAnalysisResults` (output-utils.ts lines 10-30): one timestamp is
generated from the single clock reading `nowTimestamp` (line 16) and used
in both file names; the JSON data and the rendered Markdown report (which
takes its own clock reading `nowReport`) are written. -/
def saveAnalysisResults (analysisType : String) (data : Json)
    (terminalOutput : String) (projectPath : String)
    (nowTimestamp nowReport : String) : SavedResults :=
  let timestamp := generateTimestamp nowTimestamp
  let sanitizedPath := sanitizedPathName projectPath
  let jsonFileName := analysisType ++ "_" ++ sanitizedPath ++ "_" ++ timestamp ++ ".json"
  let markdownFileName := analysisType ++ "_" ++ sanitizedPath ++ "_" ++ timestamp ++ ".md"
  let markdownContent :=
    generateMarkdownReport analysisType data terminalOutput projectPath nowReport
  { jsonFile := jsonFileName
    markdownFile := markdownFileName
    writes := [(jsonFileName, jsonStringify data), (markdownFileName, markdownContent)] }

/-- Claim C7: every successful `saveAnalysisResults` call produces exactly
two files, a JSON file and a Markdown file, whose names are identical
except for the extension; the timestamp component comes from the single
`generateTimestamp()` call and is shared by both names. -/
theorem saveAnalysisResults_two_files
    (analysisType : String) (data : Json)
    (terminalOutput projectPath nowTimestamp nowReport : String) :
    ∃ base,
      (saveAnalysisResults analysisType data terminalOutput projectPath
        nowTimestamp nowReport).jsonFile = base ++ ".json" ∧
      (saveAnalysisResults analysisType data terminalOutput projectPath
        nowTimestamp nowReport).markdownFile = base ++ ".md" ∧
      (saveAnalysisResults analysisType data terminalOutput projectPath
        nowTimestamp nowReport).writes.length = 2 ∧
      (saveAnalysisResults analysisType data terminalOutput projectPath
        nowTimestamp nowReport).writes.map Prod.fst =
        [(saveAnalysisResults analysisType data terminalOutput projectPath
            nowTimestamp nowReport).jsonFile,
         (saveAnalysisResults analysisType data terminalOutput projectPath
            nowTimestamp nowReport).markdownFile] ∧
      base = analysisType ++ "_" ++ sanitizedPathName projectPath ++ "_" ++
        generateTimestamp nowTimestamp :=
  ⟨analysisType ++ "_" ++ sanitizedPathName projectPath ++ "_" ++
      generateTimestamp nowTimestamp, rfl, rfl, rfl, rfl, rfl⟩

/-- A fixed prefix and a fixed suffix around a slot make string equality
equivalent to slot equality. -/
theorem string_append_slot_inj (a b t₁ t₂ : String) :
    a ++ (t₁ ++ b) = a ++ (t₂ ++ b) ↔ t₁ = t₂ := by
  constructor
  · intro h
    have hd := congrArg String.data h
    simp only [String.data_append] at hd
    have h₁ := List.append_cancel_left hd
    have h₂ := List.append_cancel_right h₁
    cases t₁
    cases t₂
    simp only at h₂
    simp [h₂]
  · intro h
    rw [h]

/-- Claim C8 amended: the Markdown renderer is a deterministic function of
the analysis type, data, terminal output, project path AND the clock
reading it embeds as the Analysis Date.  Two renderings of identical input
data are byte-identical if and only if they observe the same clock
reading; renders at different instants differ. -/
theorem generateMarkdownReport_deterministic_iff_same_clock
    (analysisType : String) (data : Json)
    (terminalOutput projectPath t₁ t₂ : String) :
    generateMarkdownReport analysisType data terminalOutput projectPath t₁ =
      generateMarkdownReport analysisType data terminalOutput projectPath t₂ ↔
    t₁ = t₂ := by
  unfold generateMarkdownReport
  exact string_append_slot_inj _ _ _ _

/-- Counterexample to claim C8: the renderer embeds `new Date()` taken at
render time, so rendering the same analysis type, data, terminal output
and project path at two different instants yields reports that are not
byte-identical. -/
theorem generateMarkdownReport_not_clock_free :
    generateMarkdownReport "cve" .null "" "./src" "2025-06-02T17:37:11.225Z" ≠
      generateMarkdownReport "cve" .null "" "./src" "2025-06-03T09:00:00.000Z" := by
  intro h
  unfold generateMarkdownReport at h
  have ht := (string_append_slot_inj _ _ _ _).mp h
  exact absurd ht (by decide)

/-! ## Per-file assessment loop and command handlers (src/commands, src/index.ts) -/

/-- The per-file loop of `cloudReadinessCommand.handler` (cloud-readiness
command, lines 789-798): `for (...) { const fileContent =
fs.readFileSync(file, 'utf-8'); const assessment = await
cloudAnalyzer.assessFile(...); assessmentResults.push(assessment); }`.
There is no per-file `try`/`catch`: `readFile` models `fs.readFileSync`,
whose exception aborts the loop and propagates to the handler's outer
`catch`. -/
def assessmentLoop (readFile : String → Except String String)
    (assess : String → String → CloudAssessment) :
    List String → Except String (List CloudAssessment)
  | [] => .ok []
  | file :: rest => do
    let fileContent ← readFile file
    let assessment := assess file fileContent
    let restResults ← assessmentLoop readFile assess rest
    pure (assessment :: restResults)

/-- Counterexample to claim C4: a read failure on the second of three
files aborts the whole cloud-readiness batch — the loop returns the error
and the third file is never assessed, instead of logging a warning and
skipping the file. -/
theorem assessmentLoop_aborts_on_read_error :
    assessmentLoop
      (fun file => if file = "b.ts" then .error "EACCES: permission denied" else .ok "")
      (fun file _content =>
        assessFile none (fun _ => .error "unused") noFlags file "generic" "t")
      ["a.ts", "b.ts", "c.ts"] = .error "EACCES: permission denied" := by
  rfl

/-- Claim C4 amended: a failure of the LLM call during one file's analysis
does not abort the batch — `assessFile` catches it and produces exactly
the assessment it would produce with no LLM service — and when every file
is readable the loop assesses every file; a per-file READ error in the
cloud-readiness loop, however, aborts the whole batch (see the
counterexample). -/
theorem assessmentLoop_and_assessFile_fallback :
    (∀ (jsonParse : String → Except String Json) (flags : StaticCheckFlags)
        (filePath provider ts e : String),
      assessFile (some (.error e)) jsonParse flags filePath provider ts =
        assessFile none jsonParse flags filePath provider ts) ∧
    (∀ (readFile : String → Except String String)
        (assess : String → String → CloudAssessment) (files : List String),
      (∀ f ∈ files, ∃ c, readFile f = .ok c) →
      ∃ results, assessmentLoop readFile assess files = .ok results ∧
        results.length = files.length) := by
  constructor
  · intro jsonParse flags filePath provider ts e
    rfl
  · intro readFile assess files hread
    induction files with
    | nil => exact ⟨[], rfl, rfl⟩
    | cons f rest ih =>
      obtain ⟨c, hc⟩ := hread f (List.mem_cons_self f rest)
      obtain ⟨results, hres, hlen⟩ := ih (fun g hg => hread g (List.mem_cons_of_mem f hg))
      refine ⟨assess f c :: results, ?_, by simp [hlen]⟩
      simp [assessmentLoop, hc, hres, Bind.bind, Except.bind, Pure.pure, Except.pure]

/-- Witness for the amended C4 theorem at concrete inputs. -/
theorem assessmentLoop_and_assessFile_fallback_witness :
    ∃ results,
      assessmentLoop (fun _ => .ok "const x = 1;")
        (fun file _content =>
          assessFile none (fun _ => .error "unused") noFlags file "generic" "t")
        ["a.ts"] = .ok results ∧ results.length = 1 :=
  assessmentLoop_and_assessFile_fallback.2 (fun _ => .ok "const x = 1;")
    (fun file _content =>
      assessFile none (fun _ => .error "unused") noFlags file "generic" "t")
    ["a.ts"] (fun _ _ => ⟨"const x = 1;", rfl⟩)

/-- Outcome of one CLI command invocation: it either throws (the error
reaches `main().catch`, src/index.ts lines 32-35) or completes, having
written the listed result files. -/
inductive CommandOutcome where
  | threw (message : String)
  | completed (writtenFiles : List String)
deriving DecidableEq

/-- The process exit code under `main().catch` (src/index.ts lines 32-35):
a command whose handler throws makes the process exit with code 1;
otherwise the process ends normally (code 0). -/
def processExitCode : CommandOutcome → Nat
  | .threw _ => 1
  | .completed _ => 0

/-- Result files written by the invocation: none when the handler threw
during validation, since the checks precede every write. -/
def resultFilesWritten : CommandOutcome → List String
  | .threw _ => []
  | .completed files => files

/-- Truthiness of the `--llm-api-key` option: JavaScript `!argv.llmApiKey`
is true when the option is absent or the empty string. -/
def keyTruthy : Option String → Bool
  | none => false
  | some s => !(s == "")

/-- `cveCommand.handler` (src/commands/cve.ts lines 53-129): the two
validations of lines 66-73 (`fs.existsSync` on the path, truthiness of the
LLM API key) run before any analysis; `rest` abstracts the analysis and
saving that follow (they drive the external OWASP scanner and the enhanced
analyzer), yielding the files written on success or the error thrown. -/
def cveHandler (path : String) (pathExists : Bool) (llmApiKey : Option String)
    (rest : Except String (List String)) : CommandOutcome :=
  if !pathExists then .threw ("Path does not exist: " ++ path)
  else if !(keyTruthy llmApiKey) then
    .threw "LLM API key is required. Set LLM_API_KEY environment variable or use --llm-api-key option."
  else
    match rest with
    | .ok files => .completed files
    | .error e => .threw e

/-- `architectCommand.handler` (architect command, lines 319-453): the two
validations of lines 324-331, then packaging and LLM analysis (abstracted
as `rest`). -/
def architectHandler (path : String) (pathExists : Bool) (llmApiKey : Option String)
    (rest : Except String (List String)) : CommandOutcome :=
  if !pathExists then .threw ("Path does not exist: " ++ path)
  else if !(keyTruthy llmApiKey) then
    .threw "LLM API key is required for architectural analysis. Set LLM_API_KEY environment variable or use --llm-api-key option."
  else
    match rest with
    | .ok files => .completed files
    | .error e => .threw e

/-- Serialization of one cloud issue for the saved output data.  An absent
recommendation serializes as null, where `JSON.stringify` would omit the
key — a difference no theorem observes. -/
def cloudIssueToJson (i : CloudIssue) : Json :=
  .obj [("category", i.category), ("severity", i.severity),
        ("description", i.description), ("recommendation", i.recommendation)]

/-- Serialization of one assessment for the saved output data. -/
def cloudAssessmentToJson (a : CloudAssessment) : Json :=
  .obj [("filePath", .str a.filePath), ("readinessScore", .num a.readinessScore),
        ("issues", .arr (a.issues.map cloudIssueToJson)),
        ("strengths", .arr (a.strengths.map Json.str)),
        ("recommendations", .arr (a.recommendations.map Json.str)),
        ("cloudProvider", .str a.cloudProvider),
        ("assessmentTimestamp", .str a.assessmentTimestamp)]

/-- The output-data object literal of the cloud-readiness handler (lines
861-873), including the readiness distribution of lines 811-814. -/
def cloudOutputData (nowIso analyzedPath cloudProvider : String) (overallScore : Rat)
    (files : List String) (assessments : List CloudAssessment) : Json :=
  .obj [("timestamp", .str nowIso),
        ("analyzedPath", .str analyzedPath),
        ("cloudProvider", .str cloudProvider),
        ("overallScore", .num overallScore),
        ("totalFiles", .num (files.length : Rat)),
        ("summary", .obj [
          ("highReadiness", .num ((assessments.filter
            (fun r => decide (8 ≤ r.readinessScore))).length : Rat)),
          ("mediumReadiness", .num ((assessments.filter
            (fun r => decide (5 ≤ r.readinessScore) && decide (r.readinessScore < 8))).length : Rat)),
          ("lowReadiness", .num ((assessments.filter
            (fun r => decide (r.readinessScore < 5))).length : Rat))]),
        ("assessments", .arr (assessments.map cloudAssessmentToJson))]

/-- `cloudReadinessCommand.handler` (cloud-readiness command, lines
761-893): ONLY the path is validated (lines 775-777); a missing API key is
not fatal — the LLM service is simply not constructed (`argv.llmApiKey ?
new LlmService(...) : null`, line 780), each file is assessed with static
analysis alone, and the two result files are still saved.  `llmOutcomes`
gives the network outcome of `assessCloudReadiness` per file when the
service exists; `flagsOf` gives the regex outcomes of each file's content;
`nowIso`, `nowTimestamp` and `nowReport` are the clock readings of the
assessment timestamps, `generateTimestamp` and the report header. -/
def cloudReadinessHandler (path : String) (pathExists : Bool)
    (llmApiKey : Option String) (files : List String)
    (readFile : String → Except String String)
    (llmOutcomes : String → Except String String)
    (jsonParse : String → Except String Json)
    (flagsOf : String → StaticCheckFlags)
    (cloudProvider : String) (terminalOutput : String)
    (nowIso nowTimestamp nowReport : String) : CommandOutcome :=
  if !pathExists then .threw ("Path does not exist: " ++ path)
  else
    let assess : String → String → CloudAssessment := fun file _content =>
      assessFile (if keyTruthy llmApiKey then some (llmOutcomes file) else none)
        jsonParse (flagsOf file) file cloudProvider nowIso
    match assessmentLoop readFile assess files with
    | .error e => .threw e
    | .ok assessments =>
      let overallScore := calculateOverallReadiness assessments
      let outputData := cloudOutputData nowIso path cloudProvider overallScore files assessments
      let saved := saveAnalysisResults "cloud-readiness" outputData terminalOutput path
        nowTimestamp nowReport
      .completed [saved.jsonFile, saved.markdownFile]

/-- Counterexample to claim C5: the cloud-readiness command invoked on an
existing path with NO LLM API key does not throw — it completes, writes
its two result files, and the process exits with code 0. -/
theorem cloudReadiness_completes_without_api_key :
    cloudReadinessHandler "./src" true none []
        (fun _ => .error "no file is ever read")
        (fun _ => .error "the LLM is never called")
        (fun _ => .error "nothing is parsed")
        (fun _ => noFlags) "generic" ""
        "2025-06-02T17:37:11.225Z" "2025-06-02T17:37:11.225Z" "2025-06-02T17:37:11.225Z" =
      .completed
        ["cloud-readiness_src_2025-06-02_17-37-11-225Z.json",
         "cloud-readiness_src_2025-06-02_17-37-11-225Z.md"] ∧
    processExitCode
      (cloudReadinessHandler "./src" true none []
        (fun _ => .error "no file is ever read")
        (fun _ => .error "the LLM is never called")
        (fun _ => .error "nothing is parsed")
        (fun _ => noFlags) "generic" ""
        "2025-06-02T17:37:11.225Z" "2025-06-02T17:37:11.225Z" "2025-06-02T17:37:11.225Z") = 0 := by
  constructor <;> rfl

/-- Claim C5 amended: a missing input path is fatal for all three commands
— the handler throws before any analysis, `main().catch` exits with code
1, and no result file is written; a missing (or empty) LLM API key is
fatal for the cve and architect commands only; the cloud-readiness
command never checks the key — with a falsy key it behaves exactly as
with no LLM service and still completes (writing both result files) when
the assessment loop succeeds. -/
theorem command_validation_fatal_cases :
    (∀ (path : String) (key : Option String) (rest : Except String (List String)),
      cveHandler path false key rest = .threw ("Path does not exist: " ++ path) ∧
      architectHandler path false key rest = .threw ("Path does not exist: " ++ path)) ∧
    (∀ (path : String) (key : Option String) (files : List String) readFile llmOutcomes
        jsonParse flagsOf (provider terminal n₁ n₂ n₃ : String),
      cloudReadinessHandler path false key files readFile llmOutcomes jsonParse flagsOf
        provider terminal n₁ n₂ n₃ = .threw ("Path does not exist: " ++ path)) ∧
    (∀ (path : String) (key : Option String) (rest : Except String (List String)),
      keyTruthy key = false →
      cveHandler path true key rest =
        .threw "LLM API key is required. Set LLM_API_KEY environment variable or use --llm-api-key option." ∧
      architectHandler path true key rest =
        .threw "LLM API key is required for architectural analysis. Set LLM_API_KEY environment variable or use --llm-api-key option.") ∧
    (∀ m, processExitCode (.threw m) = 1 ∧ resultFilesWritten (.threw m) = []) ∧
    (∀ (path : String) (key : Option String) (files : List String) readFile llmOutcomes
        jsonParse flagsOf (provider terminal n₁ n₂ n₃ : String),
      keyTruthy key = false →
      cloudReadinessHandler path true key files readFile llmOutcomes jsonParse flagsOf
          provider terminal n₁ n₂ n₃ =
        cloudReadinessHandler path true none files readFile llmOutcomes jsonParse flagsOf
          provider terminal n₁ n₂ n₃) ∧
    (∀ (path : String) (files : List String) readFile llmOutcomes jsonParse flagsOf
        (provider terminal n₁ n₂ n₃ : String)
        (results : List CloudAssessment),
      assessmentLoop readFile
          (fun file _content =>
            assessFile none jsonParse (flagsOf file) file provider n₁) files =
        .ok results →
      cloudReadinessHandler path true none files readFile llmOutcomes jsonParse flagsOf
          provider terminal n₁ n₂ n₃ =
        .completed
          [(saveAnalysisResults "cloud-readiness"
              (cloudOutputData n₁ path provider (calculateOverallReadiness results)
                files results) terminal path n₂ n₃).jsonFile,
           (saveAnalysisResults "cloud-readiness"
              (cloudOutputData n₁ path provider (calculateOverallReadiness results)
                files results) terminal path n₂ n₃).markdownFile]) := by
  refine ⟨?_, ?_, ?_, ?_, ?_, ?_⟩
  · intro path key rest
    exact ⟨rfl, rfl⟩
  · intro path key files readFile llmOutcomes jsonParse flagsOf provider terminal n₁ n₂ n₃
    rfl
  · intro path key rest hkey
    constructor
    · simp [cveHandler, hkey]
    · simp [architectHandler, hkey]
  · intro m
    exact ⟨rfl, rfl⟩
  · intro path key files readFile llmOutcomes jsonParse flagsOf provider terminal n₁ n₂ n₃ hkey
    simp only [cloudReadinessHandler, hkey]
    rfl
  · intro path files readFile llmOutcomes jsonParse flagsOf provider terminal n₁ n₂ n₃
      results hloop
    have hloop' : assessmentLoop readFile
        (fun file _content =>
          assessFile (if keyTruthy none then some (llmOutcomes file) else none)
            jsonParse (flagsOf file) file provider n₁) files = .ok results := hloop
    simp only [cloudReadinessHandler]
    rw [hloop']
    rfl

/-- Witness for the amended C5 theorem at concrete inputs. -/
theorem command_validation_fatal_cases_witness :
    cveHandler "./missing" false (some "sk-key") (.ok ["out.json"]) =
        .threw "Path does not exist: ./missing" ∧
    cveHandler "./src" true (some "") (.ok ["out.json"]) =
        .threw "LLM API key is required. Set LLM_API_KEY environment variable or use --llm-api-key option." ∧
    cloudReadinessHandler "./src" true (some "") [] (fun _ => .ok "")
        (fun _ => .ok "") (fun _ => .error "e") (fun _ => noFlags) "generic" ""
        "t1" "t2" "t3" =
      cloudReadinessHandler "./src" true none [] (fun _ => .ok "")
        (fun _ => .ok "") (fun _ => .error "e") (fun _ => noFlags) "generic" ""
        "t1" "t2" "t3" :=
  ⟨(command_validation_fatal_cases.1 "./missing" (some "sk-key") (.ok ["out.json"])).1,
   (command_validation_fatal_cases.2.2.1 "./src" (some "") (.ok ["out.json"]) rfl).1,
   command_validation_fatal_cases.2.2.2.2.1 "./src" (some "") [] (fun _ => .ok "")
     (fun _ => .ok "") (fun _ => .error "e") (fun _ => noFlags) "generic" ""
     "t1" "t2" "t3" rfl⟩

/-! ## File scanning (src/utils/file-scanner.ts) -/

/-- A file-system tree: named files and named directories with entries.
Entries the code cannot stat or read (skipped with a warning) are simply
absent from the modelled tree. -/
inductive FsEntry where
  | file (name : String) : FsEntry
  | dir (name : String) (children : List FsEntry) : FsEntry

/-- The fixed skip set of `shouldSkipDirectory` (file-scanner.ts lines
66-90). -/
def skipDirs : List String :=
  ["node_modules", ".git", ".svn", ".hg", "dist", "build", "target", "bin",
   "obj", ".idea", ".vscode", "__pycache__", ".pytest_cache", "coverage",
   ".nyc_output", "logs", "tmp", "temp", ".DS_Store"]

/-- `shouldSkipDirectory` (lines 66-90): a directory entry is skipped when
its name is in the fixed set or starts with a dot. -/
def shouldSkipDirectory (dirName : String) : Bool :=
  skipDirs.contains dirName || dirName.startsWith "."

/-- Node `path.extname` applied to an entry name: the substring from the
last '.' (inclusive) when one exists beyond the first character, otherwise
the empty string. -/
def extname (name : String) : String :=
  let cs := name.data
  let revExt := cs.reverse.takeWhile (fun c => c ≠ '.')
  if revExt.length + 1 < cs.length ∨ (revExt.length + 1 = cs.length ∧ 1 < cs.length)
  then List.asString ('.' :: revExt.reverse)
  else ""

/-- `shouldIncludeFile` (lines 61-64): the lowercased extension must be in
the (lowercased) extension set given to the `FileScanner` constructor.
`path.extname` of a full path only depends on the final component, so it
is applied to the entry name. -/
def shouldIncludeFile (extensions : List String) (fileName : String) : Bool :=
  (extensions.map lowerString).contains (lowerString (extname fileName))

/-- `scanDirectoryRecursive` (lines 31-59) over the entries of one
directory.  `pre` is the list of directory names from the scan root down
to the current directory; a returned path is the component list of the
file below the scan root.  Files pass through the extension filter;
subdirectories are entered only when `recursive` holds and
`shouldSkipDirectory` accepts the entry name. -/
def scanList (extensions : List String) (recursive : Bool) :
    List String → List FsEntry → List (List String)
  | _, [] => []
  | pre, .file name :: rest =>
      (if shouldIncludeFile extensions name then [pre ++ [name]] else []) ++
        scanList extensions recursive pre rest
  | pre, .dir name children :: rest =>
      (if recursive && !shouldSkipDirectory name then
          scanList extensions recursive (pre ++ [name]) children
        else []) ++
        scanList extensions recursive pre rest

/-- Sort key of a returned path: the joined path string (`path.resolve`
prefixes the same absolute root onto every result, which does not change
the relative order). -/
def pathKey (p : List String) : String := String.intercalate "/" p

/-- Insertion into a list sorted by `pathKey`. -/
def sortInsert (p : List String) : List (List String) → List (List String)
  | [] => [p]
  | q :: qs => if pathKey p ≤ pathKey q then p :: q :: qs else q :: sortInsert p qs

/-- `files.sort()` (line 28), modelled as insertion sort on the joined
path strings; sorting preserves membership, the only property the claims
use. -/
def sortPaths : List (List String) → List (List String)
  | [] => []
  | p :: ps => sortInsert p (sortPaths ps)

/-- `FileScanner.scanDirectory` (lines 11-29): a file target is included
exactly when it passes the extension filter; a directory target is scanned
recursively — note that no skip check is applied to the target itself,
only to entries met during the walk; the collected paths are sorted. -/
def scanDirectory (extensions : List String) (target : FsEntry) (recursive : Bool) :
    List (List String) :=
  let files := match target with
    | .file name => if shouldIncludeFile extensions name then [[name]] else []
    | .dir _ children => scanList extensions recursive [] children
  sortPaths files

/-- Membership is preserved by `sortInsert`. -/
theorem mem_sortInsert (p x : List String) (l : List (List String)) :
    x ∈ sortInsert p l ↔ x = p ∨ x ∈ l := by
  induction l with
  | nil => simp [sortInsert]
  | cons q qs ih =>
    simp only [sortInsert]
    split_ifs
    · simp [List.mem_cons]
    · simp only [List.mem_cons, ih]
      tauto

/-- Membership is preserved by `sortPaths`. -/
theorem mem_sortPaths (x : List String) (l : List (List String)) :
    x ∈ sortPaths l ↔ x ∈ l := by
  induction l with
  | nil => simp [sortPaths]
  | cons p ps ih => simp [sortPaths, mem_sortInsert, ih]

/-- No path collected by the walk has a skipped directory name among its
directory components, provided none of the prefix components is skipped
(strong induction on the tree size). -/
theorem scanList_no_skipped (extensions : List String) (recursive : Bool) :
    ∀ (n : Nat) (es : List FsEntry), sizeOf es < n →
      ∀ (pre p : List String),
        (∀ d ∈ pre, shouldSkipDirectory d = false) →
        p ∈ scanList extensions recursive pre es →
        ∀ d ∈ p.dropLast, shouldSkipDirectory d = false := by
  intro n
  induction n with
  | zero =>
    intro es hsz
    exact absurd hsz (Nat.not_lt_zero _)
  | succ n ih =>
    intro es hsz pre p hpre hp
    match es with
    | [] => simp [scanList] at hp
    | .file name :: rest =>
      simp only [scanList, List.mem_append] at hp
      rcases hp with hp | hp
      · split_ifs at hp with hinc
        · simp only [List.mem_singleton] at hp
          subst hp
          rw [List.dropLast_concat]
          exact hpre
        · simp at hp
      · refine ih rest ?_ pre p hpre hp
        simp only [List.cons.sizeOf_spec] at hsz
        omega
    | .dir name children :: rest =>
      simp only [scanList, List.mem_append] at hp
      rcases hp with hp | hp
      · by_cases hcond : (recursive && !shouldSkipDirectory name) = true
        · rw [if_pos hcond] at hp
          have hskip : shouldSkipDirectory name = false := by
            have h2 : recursive = true ∧ (!shouldSkipDirectory name) = true := by
              simpa using hcond
            simpa using h2.2
          refine ih children ?_ (pre ++ [name]) p ?_ hp
          · simp only [List.cons.sizeOf_spec, FsEntry.dir.sizeOf_spec] at hsz
            omega
          · intro d hd
            rcases List.mem_append.mp hd with h | h
            · exact hpre d h
            · simp only [List.mem_singleton] at h
              subst h
              exact hskip
        · rw [if_neg hcond] at hp
          simp at hp
      · refine ih rest ?_ pre p hpre hp
        simp only [List.cons.sizeOf_spec] at hsz
        omega

/-- Claim C6: for every directory tree, extension filter and recursion
flag, every path returned by `FileScanner.scanDirectory` has NO directory
component (below the scan root) whose name is in the fixed skip set or
starts with a dot — no file under such a directory ever appears in the
result, regardless of its extension. -/
theorem scanDirectory_excludes_skipped_dirs
    (extensions : List String) (target : FsEntry) (recursive : Bool)
    (p : List String) (hp : p ∈ scanDirectory extensions target recursive) :
    ∀ d ∈ p.dropLast, shouldSkipDirectory d = false := by
  cases target with
  | file name =>
    simp only [scanDirectory] at hp
    rw [mem_sortPaths] at hp
    split_ifs at hp
    · simp only [List.mem_singleton] at hp
      subst hp
      simp
    · simp at hp
  | dir name children =>
    simp only [scanDirectory] at hp
    rw [mem_sortPaths] at hp
    exact scanList_no_skipped extensions recursive (sizeOf children + 1) children
      (Nat.lt_succ_self _) [] p (by simp) hp

/-- A small tree for the C6 witness: the scan returns `proj/app.ts` (as the
component list `["app.ts"]` below the root) and nothing from
`node_modules`. -/
def demoTree : FsEntry :=
  .dir "proj" [.dir "node_modules" [.file "lib.ts"], .file "app.ts"]

/-- Witness for C6 at a concrete tree. -/
theorem scanDirectory_excludes_skipped_dirs_witness :
    ["app.ts"] ∈ scanDirectory [".ts"] demoTree true ∧
    ∀ d ∈ (["app.ts"] : List String).dropLast, shouldSkipDirectory d = false :=
  ⟨by
    have h₁ : shouldIncludeFile [".ts"] "app.ts" = true := by decide
    have h₂ : shouldSkipDirectory "node_modules" = true := by decide
    simp [demoTree, scanDirectory, scanList, sortPaths, sortInsert, h₁, h₂],
   scanDirectory_excludes_skipped_dirs [".ts"] demoTree true ["app.ts"]
     (by
      have h₁ : shouldIncludeFile [".ts"] "app.ts" = true := by decide
      have h₂ : shouldSkipDirectory "node_modules" = true := by decide
      simp [demoTree, scanDirectory, scanList, sortPaths, sortInsert, h₁, h₂])⟩

end JM
